import Mathlib

set_option maxHeartbeats 1000000

/-! Shallow embedding of the authenticated request pipeline of the
JobBuddy frontend: the `ApiClient` class (formatUrl, refreshToken,
request) and the auth store's `logout` action.  Definitions are
translated from the TypeScript source; the theorems check the
specification's claims against them. -/

-- ## JavaScript string helpers (UTF-16 subtleties aside, a JS string is
-- modelled as a Lean `String`, i.e. a list of characters).

def listHasPre : List Char → List Char → Bool
  | [], _ => true
  | _ :: _, [] => false
  | a :: as, b :: bs => a == b && listHasPre as bs

def listHasSub (p : List Char) : List Char → Bool
  | [] => p.isEmpty
  | c :: cs => listHasPre p (c :: cs) || listHasSub p cs

/-- JS `s.startsWith(pre)`. -/
def strStarts (s pre : String) : Bool := listHasPre pre.data s.data

/-- JS `s.endsWith(suf)`. -/
def strEnds (s suf : String) : Bool := listHasPre suf.data.reverse s.data.reverse

/-- JS `s.includes(pat)` (substring containment). -/
def containsSubstr (s pat : String) : Bool := listHasSub pat.data s.data

/-- JS `s.slice(1)`: drop the first character. -/
def strDrop1 (s : String) : String := String.mk (s.data.drop 1)

/-- JS `s.slice(0, -1)`: drop the last character. -/
def strDropLast1 (s : String) : String := String.mk s.data.dropLast

/-- Whitespace characters stripped by JS `String.prototype.trim`
(the ones relevant here). -/
def isJsWsChar (c : Char) : Bool :=
  c == ' ' || c == '\t' || c == '\n' || c == '\r' || c == '\x0b' || c == '\x0c'

/-- JS `s.trim()`. -/
def jsTrim (s : String) : String :=
  String.mk (((s.data.dropWhile isJsWsChar).reverse.dropWhile isJsWsChar).reverse)

-- ## JSON values: the model of JavaScript values produced by `JSON.parse`.
-- Numbers are kept as their raw source text (no floating point is modelled;
-- no claim compares numerically distinct spellings of one number).

inductive Json where
  | null : Json
  | bool : Bool → Json
  | num : String → Json
  | str : String → Json
  | arr : List Json → Json
  | obj : List (String × Json) → Json

-- ## A JSON parser modelling `JSON.parse` (returns `none` where JS throws).

def skipWs : List Char → List Char
  | [] => []
  | c :: cs => if c == ' ' || c == '\t' || c == '\n' || c == '\r' then skipWs cs else c :: cs

def hexVal (c : Char) : Option Nat :=
  if '0' ≤ c ∧ c ≤ '9' then some (c.toNat - '0'.toNat)
  else if 'a' ≤ c ∧ c ≤ 'f' then some (c.toNat - 'a'.toNat + 10)
  else if 'A' ≤ c ∧ c ≤ 'F' then some (c.toNat - 'A'.toNat + 10)
  else none

/-- Parse the remainder of a JSON string literal (after the opening quote),
returning the decoded characters and the input after the closing quote. -/
def parseStrChars : List Char → Option (List Char × List Char)
  | [] => none
  | '"' :: rest => some ([], rest)
  | '\\' :: 'u' :: h1 :: h2 :: h3 :: h4 :: rest =>
      match hexVal h1, hexVal h2, hexVal h3, hexVal h4 with
      | some a, some b, some c, some d =>
          match parseStrChars rest with
          | some (cs, r) => some (Char.ofNat (((a * 16 + b) * 16 + c) * 16 + d) :: cs, r)
          | none => none
      | _, _, _, _ => none
  | '\\' :: e :: rest =>
      let esc : Option Char :=
        if e == '"' then some '"'
        else if e == '\\' then some '\\'
        else if e == '/' then some '/'
        else if e == 'b' then some (Char.ofNat 8)
        else if e == 'f' then some (Char.ofNat 12)
        else if e == 'n' then some '\n'
        else if e == 'r' then some '\r'
        else if e == 't' then some '\t'
        else none
      match esc with
      | some ec =>
          match parseStrChars rest with
          | some (cs, r) => some (ec :: cs, r)
          | none => none
      | none => none
  | c :: rest =>
      if c.toNat < 32 then none
      else
        match parseStrChars rest with
        | some (cs, r) => some (c :: cs, r)
        | none => none

def spanDigits (cs : List Char) : List Char × List Char :=
  (cs.takeWhile Char.isDigit, cs.dropWhile Char.isDigit)

def parseIntPart : List Char → Option (List Char × List Char)
  | '0' :: rest => some (['0'], rest)
  | c :: rest =>
      if c.isDigit then
        let (ds, r) := spanDigits (c :: rest)
        some (ds, r)
      else none
  | [] => none

def expHelp (c : Char) (er fallback : List Char) : List Char × List Char :=
  let (signPart, er1) :=
    match er with
    | '+' :: r => ((['+'] : List Char), r)
    | '-' :: r => ((['-'] : List Char), r)
    | _ => (([] : List Char), er)
  let ds := er1.takeWhile Char.isDigit
  if ds.isEmpty then ([], fallback)
  else (c :: (signPart ++ ds), er1.dropWhile Char.isDigit)

def parseNum (cs : List Char) : Option (Json × List Char) :=
  let (negPart, cs1) :=
    match cs with
    | '-' :: r => ((['-'] : List Char), r)
    | _ => (([] : List Char), cs)
  match parseIntPart cs1 with
  | none => none
  | some (ip, r1) =>
      let (fracPart, r2) :=
        match r1 with
        | '.' :: fr =>
            let ds := fr.takeWhile Char.isDigit
            if ds.isEmpty then (([] : List Char), r1)
            else ('.' :: ds, fr.dropWhile Char.isDigit)
        | _ => (([] : List Char), r1)
      let (expPart, r3) :=
        match r2 with
        | 'e' :: er => expHelp 'e' er r2
        | 'E' :: er => expHelp 'E' er r2
        | _ => (([] : List Char), r2)
      some (Json.num (String.mk (negPart ++ ip ++ fracPart ++ expPart)), r3)

mutual

def pVal : Nat → List Char → Option (Json × List Char)
  | 0, _ => none
  | fuel + 1, cs =>
      match skipWs cs with
      | [] => none
      | 'n' :: 'u' :: 'l' :: 'l' :: rest => some (Json.null, rest)
      | 't' :: 'r' :: 'u' :: 'e' :: rest => some (Json.bool true, rest)
      | 'f' :: 'a' :: 'l' :: 's' :: 'e' :: rest => some (Json.bool false, rest)
      | '"' :: rest =>
          match parseStrChars rest with
          | some (cs2, r) => some (Json.str (String.mk cs2), r)
          | none => none
      | '[' :: rest => pArr fuel (skipWs rest) []
      | '{' :: rest => pObj fuel (skipWs rest) []
      | c :: rest =>
          if c == '-' || c.isDigit then parseNum (c :: rest) else none

def pArr : Nat → List Char → List Json → Option (Json × List Char)
  | 0, _, _ => none
  | fuel + 1, cs, acc =>
      match cs with
      | ']' :: rest => if acc.isEmpty then some (Json.arr [], rest) else none
      | _ =>
          match pVal fuel cs with
          | none => none
          | some (v, r) =>
              match skipWs r with
              | ',' :: r2 => pArr fuel (skipWs r2) (acc ++ [v])
              | ']' :: r2 => some (Json.arr (acc ++ [v]), r2)
              | _ => none

def pObj : Nat → List Char → List (String × Json) → Option (Json × List Char)
  | 0, _, _ => none
  | fuel + 1, cs, acc =>
      match cs with
      | '}' :: rest => if acc.isEmpty then some (Json.obj [], rest) else none
      | '"' :: rest =>
          match parseStrChars rest with
          | none => none
          | some (kcs, r1) =>
              match skipWs r1 with
              | ':' :: r2 =>
                  match pVal fuel r2 with
                  | none => none
                  | some (v, r3) =>
                      match skipWs r3 with
                      | ',' :: r4 => pObj fuel (skipWs r4) (acc ++ [(String.mk kcs, v)])
                      | '}' :: r4 => some (Json.obj (acc ++ [(String.mk kcs, v)]), r4)
                      | _ => none
              | _ => none
      | _ => none

end

/-- Model of `JSON.parse`: `none` where JS would throw a `SyntaxError`. -/
def jsonParse (s : String) : Option Json :=
  match pVal (2 * s.data.length + 8) s.data with
  | some (v, rest) => if (skipWs rest).isEmpty then some v else none
  | none => none

-- ## JavaScript truthiness and member access, for the `||` chains.

/-- A JSON number spelling denotes zero iff all mantissa digits are `0`. -/
def jsNumIsZero (raw : String) : Bool :=
  (raw.data.takeWhile (fun c => ¬ (c == 'e' || c == 'E'))).all
    (fun c => ¬ c.isDigit || c == '0')

/-- JS truthiness of a JSON value. -/
def jsTruthy : Json → Bool
  | Json.null => false
  | Json.bool b => b
  | Json.num raw => ¬ jsNumIsZero raw
  | Json.str s => ¬ s.isEmpty
  | Json.arr _ => true
  | Json.obj _ => true

/-- JS `a || b`. -/
def jsOr (a b : Json) : Json := if jsTruthy a then a else b

/-- JS member access `j?.k`: the field value of an object (JS keeps the
last duplicate key), and `undefined`/`null` (both modelled as `Json.null`,
indistinguishable for the truthiness tests used here) otherwise. -/
def jsonObjGet : Json → String → Json
  | Json.obj fields, k =>
      match fields.reverse.find? (fun kv => kv.1 == k) with
      | some kv => kv.2
      | none => Json.null
  | _, _ => Json.null

/-- A JSON value read where the code expects a string; non-strings read
as the empty string (observationally absent through the `|| null` reads). -/
def jsonStrD : Json → String
  | Json.str s => s
  | _ => ""

-- ## Credential store (src/store/authStore.ts)

structure AuthTokens where
  accessToken : String
  refreshToken : String

structure UserInfo where
  id : String
  email : String
  name : String

/-- The persisted slice of the zustand auth store that the pipeline reads
and writes: `user`, `tokens`, `isAuthenticated`. -/
structure AuthState where
  user : Option UserInfo
  tokens : Option AuthTokens
  isAuthenticated : Bool

/-- `ApiClient.getAuthToken`: `authState.tokens?.accessToken || null`
(an empty string is falsy, hence read as absent). -/
def getAuthToken (st : AuthState) : Option String :=
  match st.tokens with
  | none => none
  | some t => if t.accessToken.isEmpty then none else some t.accessToken

/-- `ApiClient.getRefreshToken`: `authState.tokens?.refreshToken || null`. -/
def getRefreshToken (st : AuthState) : Option String :=
  match st.tokens with
  | none => none
  | some t => if t.refreshToken.isEmpty then none else some t.refreshToken

-- ## Request formatter (ApiClient.formatUrl)

/-- `ApiClient.formatUrl`, parameterized by the configured base URL
(`API_URL`, i.e. `VITE_API_URL` or its default). -/
def formatUrl (apiUrl endpoint : String) : String :=
  if strStarts endpoint "http" then endpoint
  else
    let cleanEndpoint := if strStarts endpoint "/" then strDrop1 endpoint else endpoint
    let baseUrl := if strEnds apiUrl "/" then strDropLast1 apiUrl else apiUrl
    baseUrl ++ "/" ++ cleanEndpoint

/-- The source's default base URL (`'http://localhost:3000/api'`). -/
def defaultApiUrl : String := "http://localhost:3000/api"

-- ## HTTP layer: responses and the environment supplying fetch outcomes

structure HttpResponse where
  status : Nat
  statusText : String
  contentType : Option String
  body : String

/-- `response.ok`: status in the inclusive range 200–299. -/
def respOk (r : HttpResponse) : Bool := 200 ≤ r.status && r.status < 300

/-- Outcome of one `fetch` call: a settled response, or a rejection
carrying `error.message` (timeout, abort, connection error). -/
inductive FetchOutcome where
  | ok : HttpResponse → FetchOutcome
  | err : String → FetchOutcome

/-- The environment for one pipeline invocation: the outcome of the
original fetch, of the refresh-token fetch, and of the retried fetch. -/
structure Env where
  first : FetchOutcome
  refresh : FetchOutcome
  retry : FetchOutcome

/-- One network request issued (a `fetch` call, whether or not it
settles successfully). -/
structure NetEvent where
  url : String
  method : String
  headers : List (String × String)
  body : Option Json

-- ## Headers: JS object literals with spread (later keys overwrite,
-- insertion order preserved) and property assignment.

def objInsert (m : List (String × String)) (k v : String) : List (String × String) :=
  if m.any (fun kv => kv.1 == k) then
    m.map (fun kv => if kv.1 == k then (k, v) else kv)
  else m ++ [(k, v)]

def objSpread (base add : List (String × String)) : List (String × String) :=
  add.foldl (fun m kv => objInsert m kv.1 kv.2) base

/-- Headers of the first request: `{'Content-Type': ..., ...headers}`
followed by the assignment `requestHeaders['Authorization'] = ...`
when a token is attached. -/
def firstHeaders (tok : Option String) (callerHeaders : List (String × String)) :
    List (String × String) :=
  let base := objSpread [("Content-Type", "application/json")] callerHeaders
  match tok with
  | some t => objInsert base "Authorization" ("Bearer " ++ t)
  | none => base

/-- Headers of the retried request:
`{'Content-Type': ..., 'Authorization': ..., ...headers}` (caller headers
spread last, so they overwrite). -/
def retryHeaders (t : String) (callerHeaders : List (String × String)) :
    List (String × String) :=
  objSpread [("Content-Type", "application/json"), ("Authorization", "Bearer " ++ t)]
    callerHeaders

-- ## Request options (interface RequestOptions) and results

structure RequestOptions where
  method : String := "GET"
  headers : List (String × String) := []
  body : Option Json := none
  requiresAuth : Bool := true
  skipRefreshToken : Bool := false

/-- `interface ApiResponse<T> { data; error; status }`.  `error` is
`Json.null` or (normally) a string; the `||` fallback chain can in
principle select a non-string server-supplied value, so it is kept as a
JSON value. -/
structure ApiResponse where
  data : Json
  error : Json
  status : Nat

/-- Outcome of running one pipeline invocation to quiescence: the result
returned to the caller, the auth-store state afterwards, and the network
requests issued (in order). -/
structure RunResult where
  result : ApiResponse
  state : AuthState
  events : List NetEvent

-- ## authStore.logout (lines 112-128): POSTs users/logout when an access
-- token is present (errors swallowed), then always clears user, tokens
-- and isAuthenticated.  The nested pipeline invocation behind that POST
-- is modelled as the one issued request, its response ignored: in the
-- source, a 401 reply to it re-invokes refreshToken, which (the refresh
-- token being absent throughout — nothing ever stores one on this path)
-- can only re-enter logout and issue FURTHER users/logout POSTs until
-- the finally block clears the tokens.  So transitively the number of
-- logout POSTs is not bounded by one, but every transitively issued
-- request still targets users/logout and never users/refresh-token.

def runLogout (apiUrl : String) (st : AuthState) : AuthState × List NetEvent :=
  let evs :=
    match getAuthToken st with
    | some tok =>
        [{ url := formatUrl apiUrl "users/logout", method := "POST",
           headers := firstHeaders (some tok) [], body := some (Json.obj []) }]
    | none => []
  ({ user := none, tokens := none, isAuthenticated := false }, evs)

/-- `data.tokens` as stored by `updateTokens`: field reads fall back to
the empty string (observationally absent); a non-object (including an
absent or null `tokens` field) stores an empty token pair whose reads
are all absent. -/
def tokensFromJson : Json → Option AuthTokens
  | Json.obj fields =>
      some { accessToken := jsonStrD (jsonObjGet (Json.obj fields) "accessToken"),
             refreshToken := jsonStrD (jsonObjGet (Json.obj fields) "refreshToken") }
  | _ => none

-- ## ApiClient.refreshToken (lines 184-235), run by a single caller
-- (the concurrent coordination is modelled separately below).
-- Returns (resolved boolean, auth state at quiescence, network events).

def runRefresh (apiUrl : String) (st : AuthState) (env : Env) :
    Bool × AuthState × List NetEvent :=
  match getRefreshToken st with
  | none =>
      -- no refresh token available: logout, resolve(false)
      let (st2, evs) := runLogout apiUrl st
      (false, st2, evs)
  | some rt =>
      let ev : NetEvent :=
        { url := formatUrl apiUrl "users/refresh-token", method := "POST",
          headers := [("Content-Type", "application/json")],
          body := some (Json.obj [("refreshToken", Json.str rt)]) }
      match env.refresh with
      | FetchOutcome.err _ =>
          -- fetch rejected: catch, logout, resolve(false)
          let (st2, evs) := runLogout apiUrl st
          (false, st2, ev :: evs)
      | FetchOutcome.ok r =>
          if respOk r then
            match jsonParse r.body with
            | none =>
                -- response.json() threw: catch, logout, resolve(false)
                let (st2, evs) := runLogout apiUrl st
                (false, st2, ev :: evs)
            | some d =>
                -- updateTokens(data.tokens): replace tokens, keep user
                -- and isAuthenticated
                (true, { st with tokens := tokensFromJson (jsonObjGet d "tokens") }, [ev])
          else
            -- !response.ok: logout, resolve(false)
            let (st2, evs) := runLogout apiUrl st
            (false, st2, ev :: evs)

-- ## Response-body parsing (request lines 371-405).  `responseText` is
-- the text of the response cloned *before* the 401/refresh handling —
-- on the retry path it is therefore the first response's body, while
-- `resp` (content type, own body for `response.json()`, ok, statusText)
-- is the current response.

def decodeCond (ct : Option String) (responseText : String) : Bool :=
  match ct with
  | none => false
  | some c =>
      ¬ c.isEmpty &&
        (containsSubstr c "application/json" || containsSubstr c "text/json" ||
          (¬ responseText.isEmpty && strStarts (jsTrim responseText) "\x7b"))

structure ParseOut where
  data : Json
  error : Json

def parseBody (resp : HttpResponse) (responseText : String) : ParseOut :=
  if decodeCond resp.contentType responseText then
    if ¬ responseText.isEmpty then
      match jsonParse responseText with
      | some j => ⟨j, Json.null⟩
      | none => ⟨Json.null, Json.str "Invalid JSON response"⟩
    else
      match jsonParse resp.body with
      | some j => ⟨j, Json.null⟩
      | none => ⟨Json.null, Json.str "Invalid JSON response"⟩
  else
    ⟨if ¬ responseText.isEmpty then Json.obj [("message", Json.str responseText)]
      else Json.null,
     Json.null⟩

/-- Lines 407-410: on a non-ok response the error becomes
`data?.message || data?.error || response.statusText || 'An error occurred'`. -/
def finalErr (po : ParseOut) (resp : HttpResponse) : Json :=
  if respOk resp then po.error
  else
    jsOr (jsonObjGet po.data "message")
      (jsOr (jsonObjGet po.data "error")
        (jsOr (Json.str resp.statusText) (Json.str "An error occurred")))

-- ## ApiClient.request (lines 240-421)

def jsTruthyOpt : Option Json → Bool
  | none => false
  | some j => jsTruthy j

def runRequest (apiUrl : String) (st : AuthState) (env : Env)
    (endpoint : String) (opts : RequestOptions) : RunResult :=
  let url := formatUrl apiUrl endpoint
  if opts.requiresAuth && (getAuthToken st).isNone then
    -- requiresAuth with no token: short-circuit, no network call
    ⟨⟨Json.null, Json.str "Authentication required", 401⟩, st, []⟩
  else
    let tokOpt := if opts.requiresAuth then getAuthToken st else none
    let reqBody := if jsTruthyOpt opts.body then opts.body else none
    let ev1 : NetEvent :=
      ⟨url, opts.method, firstHeaders tokOpt opts.headers, reqBody⟩
    match env.first with
    | FetchOutcome.err msg =>
        -- outer catch: network failure surfaced with status 0
        ⟨⟨Json.null, Json.str msg, 0⟩, st, [ev1]⟩
    | FetchOutcome.ok r1 =>
        let responseText := r1.body
        if r1.status == 401 && opts.requiresAuth && ¬ opts.skipRefreshToken then
          match runRefresh apiUrl st env with
          | (false, st2, refreshEvs) =>
              ⟨⟨Json.null, Json.str "Authentication failed. Please log in again.", 401⟩,
               st2, ev1 :: refreshEvs⟩
          | (true, st2, refreshEvs) =>
              match getAuthToken st2 with
              | some tok2 =>
                  let ev2 : NetEvent :=
                    ⟨url, opts.method, retryHeaders tok2 opts.headers, reqBody⟩
                  match env.retry with
                  | FetchOutcome.err msg =>
                      -- retry fetch rejected: outer catch, status 0
                      ⟨⟨Json.null, Json.str msg, 0⟩, st2, ev1 :: (refreshEvs ++ [ev2])⟩
                  | FetchOutcome.ok r2 =>
                      let po := parseBody r2 responseText
                      ⟨⟨po.data, finalErr po r2, r2.status⟩, st2,
                       ev1 :: (refreshEvs ++ [ev2])⟩
              | none =>
                  -- refresh "succeeded" but no token materialized: no retry,
                  -- fall through to parsing the first response
                  let po := parseBody r1 responseText
                  ⟨⟨po.data, finalErr po r1, r1.status⟩, st2, ev1 :: refreshEvs⟩
        else
          let po := parseBody r1 responseText
          ⟨⟨po.data, finalErr po r1, r1.status⟩, st, [ev1]⟩

/-- Number of issued requests aimed at a given URL. -/
def countUrl (u : String) (evs : List NetEvent) : Nat :=
  (evs.filter (fun e => e.url == u)).length

-- ## Helper lemmas

lemma strDataAppend (s t : String) : (s ++ t).data = s.data ++ t.data := rfl

lemma refresh_ne_logout (apiUrl : String) :
    formatUrl apiUrl "users/refresh-token" ≠ formatUrl apiUrl "users/logout" := by
  unfold formatUrl
  have h1 : strStarts "users/refresh-token" "http" = false := by decide
  have h2 : strStarts "users/logout" "http" = false := by decide
  have h3 : strStarts "users/refresh-token" "/" = false := by decide
  have h4 : strStarts "users/logout" "/" = false := by decide
  simp only [h1, h2, h3, h4, Bool.false_eq_true, if_false]
  intro h
  have hd := congrArg String.data h
  rw [strDataAppend, strDataAppend] at hd
  have := List.append_cancel_left hd
  exact absurd this (by decide)

lemma countUrl_nil (u : String) : countUrl u [] = 0 := rfl

lemma countUrl_cons (u : String) (e : NetEvent) (evs : List NetEvent) :
    countUrl u (e :: evs) = (if e.url = u then 1 else 0) + countUrl u evs := by
  simp only [countUrl, List.filter_cons]
  by_cases h : e.url = u
  · simp [h]; omega
  · simp [h]

lemma countUrl_append (u : String) (a b : List NetEvent) :
    countUrl u (a ++ b) = countUrl u a + countUrl u b := by
  simp [countUrl, List.filter_append]

/-- The network requests issued by one run of `refreshToken` are: none, a
lone refresh POST, a lone logout POST, or a refresh POST followed by a
logout POST. -/
lemma runRefresh_events_shape (apiUrl : String) (st : AuthState) (env : Env) :
    (runRefresh apiUrl st env).2.2 = [] ∨
    (∃ ev, (runRefresh apiUrl st env).2.2 = [ev] ∧
      (ev.url = formatUrl apiUrl "users/refresh-token" ∨
        ev.url = formatUrl apiUrl "users/logout")) ∨
    (∃ ev1 ev2, (runRefresh apiUrl st env).2.2 = [ev1, ev2] ∧
      ev1.url = formatUrl apiUrl "users/refresh-token" ∧
      ev2.url = formatUrl apiUrl "users/logout") := by
  rcases hrt : getRefreshToken st with _ | rt
  · rcases hA : getAuthToken st with _ | tok
    · left; simp [runRefresh, runLogout, hrt, hA]
    · right; left
      exact ⟨⟨formatUrl apiUrl "users/logout", "POST", firstHeaders (some tok) [],
          some (Json.obj [])⟩,
        by simp [runRefresh, runLogout, hrt, hA], Or.inr rfl⟩
  · rcases henv : env.refresh with r | m
    · by_cases hok : respOk r
      · rcases hp : jsonParse r.body with _ | d
        · rcases hA : getAuthToken st with _ | tok
          · right; left
            exact ⟨⟨formatUrl apiUrl "users/refresh-token", "POST",
                [("Content-Type", "application/json")],
                some (Json.obj [("refreshToken", Json.str rt)])⟩,
              by simp [runRefresh, runLogout, hrt, henv, hok, hp, hA], Or.inl rfl⟩
          · right; right
            exact ⟨⟨formatUrl apiUrl "users/refresh-token", "POST",
                [("Content-Type", "application/json")],
                some (Json.obj [("refreshToken", Json.str rt)])⟩,
              ⟨formatUrl apiUrl "users/logout", "POST", firstHeaders (some tok) [],
                some (Json.obj [])⟩,
              by simp [runRefresh, runLogout, hrt, henv, hok, hp, hA], rfl, rfl⟩
        · right; left
          exact ⟨⟨formatUrl apiUrl "users/refresh-token", "POST",
              [("Content-Type", "application/json")],
              some (Json.obj [("refreshToken", Json.str rt)])⟩,
            by simp [runRefresh, hrt, henv, hok, hp], Or.inl rfl⟩
      · rcases hA : getAuthToken st with _ | tok
        · right; left
          exact ⟨⟨formatUrl apiUrl "users/refresh-token", "POST",
              [("Content-Type", "application/json")],
              some (Json.obj [("refreshToken", Json.str rt)])⟩,
            by simp [runRefresh, runLogout, hrt, henv, hok, hA], Or.inl rfl⟩
        · right; right
          exact ⟨⟨formatUrl apiUrl "users/refresh-token", "POST",
              [("Content-Type", "application/json")],
              some (Json.obj [("refreshToken", Json.str rt)])⟩,
            ⟨formatUrl apiUrl "users/logout", "POST", firstHeaders (some tok) [],
              some (Json.obj [])⟩,
            by simp [runRefresh, runLogout, hrt, henv, hok, hA], rfl, rfl⟩
    · rcases hA : getAuthToken st with _ | tok
      · right; left
        exact ⟨⟨formatUrl apiUrl "users/refresh-token", "POST",
            [("Content-Type", "application/json")],
            some (Json.obj [("refreshToken", Json.str rt)])⟩,
          by simp [runRefresh, runLogout, hrt, henv, hA], Or.inl rfl⟩
      · right; right
        exact ⟨⟨formatUrl apiUrl "users/refresh-token", "POST",
            [("Content-Type", "application/json")],
            some (Json.obj [("refreshToken", Json.str rt)])⟩,
          ⟨formatUrl apiUrl "users/logout", "POST", firstHeaders (some tok) [],
            some (Json.obj [])⟩,
          by simp [runRefresh, runLogout, hrt, henv, hA], rfl, rfl⟩

/-- No request of a refresh run targets a third URL. -/
lemma runRefresh_countNe (apiUrl : String) (st : AuthState) (env : Env) (u : String)
    (h1 : u ≠ formatUrl apiUrl "users/refresh-token")
    (h2 : u ≠ formatUrl apiUrl "users/logout") :
    countUrl u (runRefresh apiUrl st env).2.2 = 0 := by
  rcases runRefresh_events_shape apiUrl st env with h | ⟨ev, hev, hurl⟩ | ⟨e1, e2, hev, hu1, hu2⟩
  · rw [h, countUrl_nil]
  · rw [hev, countUrl_cons, countUrl_nil]
    rcases hurl with h' | h' <;> rw [h'] <;> simp [Ne.symm h1, Ne.symm h2]
  · rw [hev, countUrl_cons, countUrl_cons, countUrl_nil, hu1, hu2]
    simp [Ne.symm h1, Ne.symm h2]

/-- A refresh run issues at most one refresh-token exchange request. -/
lemma runRefresh_countRefresh (apiUrl : String) (st : AuthState) (env : Env) :
    countUrl (formatUrl apiUrl "users/refresh-token") (runRefresh apiUrl st env).2.2 ≤ 1 := by
  rcases runRefresh_events_shape apiUrl st env with h | ⟨ev, hev, hurl⟩ | ⟨e1, e2, hev, hu1, hu2⟩
  · rw [h, countUrl_nil]; omega
  · rw [hev, countUrl_cons, countUrl_nil]
    split <;> omega
  · rw [hev, countUrl_cons, countUrl_cons, countUrl_nil, hu1, hu2]
    simp [Ne.symm (refresh_ne_logout apiUrl)]

-- ## Claim C7

/-- Claim C7: for every invocation of request() with requiresAuth true
while the credential store holds no access token, the returned result is
exactly {data: null, error: "Authentication required", status: 401}, the
store is untouched, and zero network requests are made. -/
theorem c7_no_token_short_circuit (apiUrl : String) (st : AuthState) (env : Env)
    (ep : String) (opts : RequestOptions)
    (h1 : opts.requiresAuth = true) (h2 : getAuthToken st = none) :
    runRequest apiUrl st env ep opts =
      ⟨⟨Json.null, Json.str "Authentication required", 401⟩, st, []⟩ := by
  simp [runRequest, h1, h2]

theorem c7_no_token_short_circuit_witness :
    runRequest defaultApiUrl ⟨none, none, false⟩
        ⟨FetchOutcome.err "x", FetchOutcome.err "x", FetchOutcome.err "x"⟩
        "applications" ⟨"GET", [], none, true, false⟩ =
      ⟨⟨Json.null, Json.str "Authentication required", 401⟩, ⟨none, none, false⟩, []⟩ :=
  c7_no_token_short_circuit defaultApiUrl ⟨none, none, false⟩
    ⟨FetchOutcome.err "x", FetchOutcome.err "x", FetchOutcome.err "x"⟩
    "applications" ⟨"GET", [], none, true, false⟩ rfl rfl

-- ## Claim C9

/-- Claim C9 (counterexample): "/foo" is a relative path (the source and
spec both treat paths with or without a leading slash as relative), yet
formatting "/foo" and "/" + "/foo" against the default base URL yields
different results, because formatUrl strips at most one leading slash. -/
theorem c9_counterexample :
    formatUrl defaultApiUrl "/foo" = "http://localhost:3000/api/foo" ∧
    formatUrl defaultApiUrl ("/" ++ "/foo") = "http://localhost:3000/api//foo" ∧
    formatUrl defaultApiUrl ("/" ++ "/foo") ≠ formatUrl defaultApiUrl "/foo" := by
  refine ⟨rfl, rfl, ?_⟩
  decide

/-- Claim C9 (amended): formatUrl returns any input beginning with "http"
unchanged (hence formatting twice equals formatting once on those); and
for every path p beginning with neither "http" nor "/",
formatUrl(p) = formatUrl("/" + p), both equal to the base URL stripped of
one trailing slash, joined to p with exactly one slash. -/
theorem c9_amended (base p : String) :
    (strStarts p "http" = true →
        formatUrl base p = p ∧
        formatUrl base (formatUrl base p) = formatUrl base p) ∧
    (strStarts p "http" = false → strStarts p "/" = false →
        formatUrl base p = formatUrl base ("/" ++ p) ∧
        formatUrl base p =
          (if strEnds base "/" then strDropLast1 base else base) ++ "/" ++ p) := by
  constructor
  · intro h
    have h1 : formatUrl base p = p := by simp [formatUrl, h]
    exact ⟨h1, by rw [h1, h1]⟩
  · intro h1 h2
    have hs : strStarts ("/" ++ p) "http" = false := rfl
    have hs2 : strStarts ("/" ++ p) "/" = true := rfl
    have hd : strDrop1 ("/" ++ p) = p := rfl
    constructor
    · simp [formatUrl, h1, h2, hs, hs2, hd]
    · simp [formatUrl, h1, h2]

theorem c9_amended_witness :
    (formatUrl defaultApiUrl "http://other.host/x" = "http://other.host/x" ∧
      formatUrl defaultApiUrl (formatUrl defaultApiUrl "http://other.host/x") =
        formatUrl defaultApiUrl "http://other.host/x") ∧
    (formatUrl defaultApiUrl "foo" = formatUrl defaultApiUrl ("/" ++ "foo") ∧
      formatUrl defaultApiUrl "foo" =
        (if strEnds defaultApiUrl "/" then strDropLast1 defaultApiUrl
          else defaultApiUrl) ++ "/" ++ "foo") :=
  ⟨(c9_amended defaultApiUrl "http://other.host/x").1 rfl,
    (c9_amended defaultApiUrl "foo").2 rfl rfl⟩

-- ## Claim C1

/-- Claim C1 (failing input): first response 401 with the nonempty JSON
body `{"message":"expired"}`, refresh succeeds with fresh tokens, retry
returns 200 with body `{"ok":true}`.  Because `responseText` is cloned
from the first response and never re-read after the retry, the returned
data is the parsed body of the FIRST response, not of the second: the
result is {data: {message: "expired"}, error: null, status: 200} instead
of the claimed {data: {ok: true}, error: null, status: 200}. -/
theorem c1_stale_body_eval :
    (runRequest defaultApiUrl
        ⟨some ⟨"u1", "u@example.com", "U"⟩, some ⟨"tok0", "ref0"⟩, true⟩
        ⟨FetchOutcome.ok ⟨401, "Unauthorized", some "application/json",
            "\x7b\"message\":\"expired\"\x7d"⟩,
          FetchOutcome.ok ⟨200, "OK", some "application/json",
            "\x7b\"tokens\":\x7b\"accessToken\":\"newA\",\"refreshToken\":\"newR\"\x7d\x7d"⟩,
          FetchOutcome.ok ⟨200, "OK", some "application/json", "\x7b\"ok\":true\x7d"⟩⟩
        "applications" ⟨"GET", [], none, true, false⟩).result =
      ⟨Json.obj [("message", Json.str "expired")], Json.null, 200⟩ := rfl

-- ## Claim C5

/-- Claim C5 (counterexample): with an access token stored but an empty
(hence absent, through the falsy read) refresh token, invoking
refreshToken() DOES make a network request: the logout it triggers issues
a best-effort POST to users/logout because an access token is present. -/
theorem c5_counterexample :
    getRefreshToken ⟨none, some ⟨"a", ""⟩, true⟩ = none ∧
    ((runRefresh defaultApiUrl ⟨none, some ⟨"a", ""⟩, true⟩
        ⟨FetchOutcome.err "x", FetchOutcome.err "x", FetchOutcome.err "x"⟩).2.2).length = 1 ∧
    (runRefresh defaultApiUrl ⟨none, some ⟨"a", ""⟩, true⟩
        ⟨FetchOutcome.err "x", FetchOutcome.err "x", FetchOutcome.err "x"⟩).2.2 =
      [⟨formatUrl defaultApiUrl "users/logout", "POST", firstHeaders (some "a") [],
        some (Json.obj [])⟩] :=
  ⟨rfl, rfl, rfl⟩

/-- Claim C5 (amended): whenever refreshToken() is invoked while no
refresh token is stored, it returns false and the session ends fully
cleared (access token, refresh token and user identity all absent), and
no network request is made provided no access token is stored either.
If an access token is stored, the triggered logout issues a best-effort
POST to users/logout (a 401 reply to which can, in the source, make its
own pipeline invocation issue further logout POSTs before the session
clears): every request issued targets users/logout, and a refresh-token
exchange request is never issued. -/
theorem c5_amended (apiUrl : String) (st : AuthState) (env : Env)
    (h : getRefreshToken st = none) :
    (runRefresh apiUrl st env).1 = false ∧
    (runRefresh apiUrl st env).2.1 = ⟨none, none, false⟩ ∧
    (getAuthToken st = none → (runRefresh apiUrl st env).2.2 = []) ∧
    (∀ e ∈ (runRefresh apiUrl st env).2.2,
      e.url = formatUrl apiUrl "users/logout") ∧
    (∀ e ∈ (runRefresh apiUrl st env).2.2,
      e.url ≠ formatUrl apiUrl "users/refresh-token") := by
  rcases hA : getAuthToken st with _ | tok <;>
    simp [runRefresh, runLogout, h, hA, Ne.symm (refresh_ne_logout apiUrl)]

theorem c5_amended_witness :
    (runRefresh defaultApiUrl ⟨none, none, false⟩
        ⟨FetchOutcome.err "x", FetchOutcome.err "x", FetchOutcome.err "x"⟩).1 = false ∧
    (runRefresh defaultApiUrl ⟨none, none, false⟩
        ⟨FetchOutcome.err "x", FetchOutcome.err "x", FetchOutcome.err "x"⟩).2.1 =
      ⟨none, none, false⟩ ∧
    (getAuthToken ⟨none, none, false⟩ = none →
      (runRefresh defaultApiUrl ⟨none, none, false⟩
        ⟨FetchOutcome.err "x", FetchOutcome.err "x", FetchOutcome.err "x"⟩).2.2 = []) ∧
    (∀ e ∈ (runRefresh defaultApiUrl ⟨none, none, false⟩
        ⟨FetchOutcome.err "x", FetchOutcome.err "x", FetchOutcome.err "x"⟩).2.2,
      e.url = formatUrl defaultApiUrl "users/logout") ∧
    (∀ e ∈ (runRefresh defaultApiUrl ⟨none, none, false⟩
        ⟨FetchOutcome.err "x", FetchOutcome.err "x", FetchOutcome.err "x"⟩).2.2,
      e.url ≠ formatUrl defaultApiUrl "users/refresh-token") :=
  c5_amended defaultApiUrl ⟨none, none, false⟩
    ⟨FetchOutcome.err "x", FetchOutcome.err "x", FetchOutcome.err "x"⟩ rfl

-- ## Claim C6

/-- Claim C6 (counterexample): a 200 response whose body is the valid
JSON `{"a":1}` (first non-whitespace character is a brace) but which
carries NO Content-Type header is NOT JSON-decoded: the whole decode
condition is short-circuited by the missing content type and the body is
wrapped as opaque text {message: <body>}. -/
theorem c6_counterexample :
    jsonParse "\x7b\"a\":1\x7d" = some (Json.obj [("a", Json.num "1")]) ∧
    strStarts (jsTrim "\x7b\"a\":1\x7d") "\x7b" = true ∧
    (runRequest defaultApiUrl ⟨none, none, false⟩
        ⟨FetchOutcome.ok ⟨200, "OK", none, "\x7b\"a\":1\x7d"⟩,
          FetchOutcome.err "x", FetchOutcome.err "x"⟩
        "health" ⟨"GET", [], none, false, false⟩).result =
      ⟨Json.obj [("message", Json.str "\x7b\"a\":1\x7d")], Json.null, 200⟩ :=
  ⟨rfl, rfl, rfl⟩

/-- Claim C6 (amended): for every response received by a non-retried
pipeline invocation, the body is JSON-decoded exactly when a nonempty
Content-Type header is present AND (it mentions application/json or
text/json, or the body is nonempty with `\x7b` as first non-whitespace
character); otherwise the body is wrapped as opaque text ({message: body}
when nonempty, null otherwise).  A JSON parse failure yields the explicit
error "Invalid JSON response" (surfaced verbatim for success statuses;
for non-success statuses the error is then replaced by the
server-message/status-text fallback) rather than a propagated exception. -/
theorem c6_amended (apiUrl : String) (st : AuthState) (env : Env) (ep : String)
    (opts : RequestOptions) (r : HttpResponse)
    (hauth : opts.requiresAuth = false) (hf : env.first = FetchOutcome.ok r) :
    (decodeCond r.contentType r.body = true →
        (∀ j, jsonParse r.body = some j →
          (runRequest apiUrl st env ep opts).result.data = j) ∧
        (jsonParse r.body = none →
          (runRequest apiUrl st env ep opts).result.data = Json.null ∧
          (respOk r = true →
            (runRequest apiUrl st env ep opts).result.error =
              Json.str "Invalid JSON response"))) ∧
    (decodeCond r.contentType r.body = false →
        (runRequest apiUrl st env ep opts).result.data =
          (if r.body.isEmpty then Json.null
            else Json.obj [("message", Json.str r.body)])) := by
  have hrun : (runRequest apiUrl st env ep opts).result =
      ⟨(parseBody r r.body).data, finalErr (parseBody r r.body) r, r.status⟩ := by
    simp [runRequest, hauth, hf]
  rw [hrun]
  constructor
  · intro hc
    constructor
    · intro j hj
      by_cases hb : r.body.isEmpty <;> simp [parseBody, hc, hj, hb]
    · intro hj
      refine ⟨?_, ?_⟩
      · by_cases hb : r.body.isEmpty <;> simp [parseBody, hc, hj, hb]
      · intro hok
        by_cases hb : r.body.isEmpty <;>
          simp [parseBody, finalErr, hc, hj, hb, hok]
  · intro hc
    by_cases hb : r.body.isEmpty <;> simp [parseBody, hc, hb]

theorem c6_amended_witness :
    (decodeCond (some "application/json") "\x7b\"a\":1\x7d" = true →
        (∀ j, jsonParse "\x7b\"a\":1\x7d" = some j →
          (runRequest defaultApiUrl ⟨none, none, false⟩
              ⟨FetchOutcome.ok ⟨200, "OK", some "application/json", "\x7b\"a\":1\x7d"⟩,
                FetchOutcome.err "x", FetchOutcome.err "x"⟩
              "health" ⟨"GET", [], none, false, false⟩).result.data = j) ∧
        (jsonParse "\x7b\"a\":1\x7d" = none →
          (runRequest defaultApiUrl ⟨none, none, false⟩
              ⟨FetchOutcome.ok ⟨200, "OK", some "application/json", "\x7b\"a\":1\x7d"⟩,
                FetchOutcome.err "x", FetchOutcome.err "x"⟩
              "health" ⟨"GET", [], none, false, false⟩).result.data = Json.null ∧
          (respOk ⟨200, "OK", some "application/json", "\x7b\"a\":1\x7d"⟩ = true →
            (runRequest defaultApiUrl ⟨none, none, false⟩
                ⟨FetchOutcome.ok ⟨200, "OK", some "application/json", "\x7b\"a\":1\x7d"⟩,
                  FetchOutcome.err "x", FetchOutcome.err "x"⟩
                "health" ⟨"GET", [], none, false, false⟩).result.error =
              Json.str "Invalid JSON response"))) ∧
    (decodeCond (some "application/json") "\x7b\"a\":1\x7d" = false →
        (runRequest defaultApiUrl ⟨none, none, false⟩
            ⟨FetchOutcome.ok ⟨200, "OK", some "application/json", "\x7b\"a\":1\x7d"⟩,
              FetchOutcome.err "x", FetchOutcome.err "x"⟩
            "health" ⟨"GET", [], none, false, false⟩).result.data =
          (if ("\x7b\"a\":1\x7d" : String).isEmpty then Json.null
            else Json.obj [("message", Json.str "\x7b\"a\":1\x7d")])) :=
  c6_amended defaultApiUrl ⟨none, none, false⟩
    ⟨FetchOutcome.ok ⟨200, "OK", some "application/json", "\x7b\"a\":1\x7d"⟩,
      FetchOutcome.err "x", FetchOutcome.err "x"⟩
    "health" ⟨"GET", [], none, false, false⟩
    ⟨200, "OK", some "application/json", "\x7b\"a\":1\x7d"⟩ rfl rfl

-- ## Claim C4

/-- Claim C4: when the refresh-token HTTP call returns a non-success
status (e.g. 403), the session is cleared (both tokens and the user
identity are gone, so a subsequent getAccessToken() read is absent),
refreshToken() resolves false, and the original caller receives exactly
{data: null, error: "Authentication failed. Please log in again.",
status: 401} with no retry of the original request (the original URL is
fetched exactly once). -/
theorem c4_refresh_nonsuccess (apiUrl : String) (st : AuthState) (env : Env)
    (ep : String) (opts : RequestOptions) (tok rt : String) (r1 rr : HttpResponse)
    (hra : opts.requiresAuth = true) (hskip : opts.skipRefreshToken = false)
    (htok : getAuthToken st = some tok)
    (hf : env.first = FetchOutcome.ok r1) (h401 : r1.status = 401)
    (hrt : getRefreshToken st = some rt)
    (hr : env.refresh = FetchOutcome.ok rr) (hrok : respOk rr = false)
    (hne1 : formatUrl apiUrl ep ≠ formatUrl apiUrl "users/refresh-token")
    (hne2 : formatUrl apiUrl ep ≠ formatUrl apiUrl "users/logout") :
    (runRequest apiUrl st env ep opts).result =
      ⟨Json.null, Json.str "Authentication failed. Please log in again.", 401⟩ ∧
    (runRefresh apiUrl st env).1 = false ∧
    (runRequest apiUrl st env ep opts).state = ⟨none, none, false⟩ ∧
    getAuthToken (runRequest apiUrl st env ep opts).state = none ∧
    countUrl (formatUrl apiUrl ep) (runRequest apiUrl st env ep opts).events = 1 := by
  have href : runRefresh apiUrl st env =
      (false, ⟨none, none, false⟩,
        [⟨formatUrl apiUrl "users/refresh-token", "POST",
            [("Content-Type", "application/json")],
            some (Json.obj [("refreshToken", Json.str rt)])⟩,
          ⟨formatUrl apiUrl "users/logout", "POST", firstHeaders (some tok) [],
            some (Json.obj [])⟩]) := by
    simp [runRefresh, runLogout, hrt, hr, hrok, htok]
  have hrun : runRequest apiUrl st env ep opts =
      ⟨⟨Json.null, Json.str "Authentication failed. Please log in again.", 401⟩,
        ⟨none, none, false⟩,
        ⟨formatUrl apiUrl ep, opts.method,
            firstHeaders (some tok) opts.headers,
            if jsTruthyOpt opts.body then opts.body else none⟩ ::
          [⟨formatUrl apiUrl "users/refresh-token", "POST",
              [("Content-Type", "application/json")],
              some (Json.obj [("refreshToken", Json.str rt)])⟩,
            ⟨formatUrl apiUrl "users/logout", "POST", firstHeaders (some tok) [],
              some (Json.obj [])⟩]⟩ := by
    simp [runRequest, hra, hskip, htok, hf, h401, href]
  rw [hrun]
  refine ⟨rfl, by rw [href], rfl, rfl, ?_⟩
  rw [countUrl_cons, countUrl_cons, countUrl_cons, countUrl_nil]
  simp [Ne.symm hne1, Ne.symm hne2]

theorem c4_refresh_nonsuccess_witness :
    (runRequest defaultApiUrl ⟨some ⟨"u1", "u@example.com", "U"⟩, some ⟨"a", "r"⟩, true⟩
        ⟨FetchOutcome.ok ⟨401, "Unauthorized", some "application/json", ""⟩,
          FetchOutcome.ok ⟨403, "Forbidden", some "application/json", ""⟩,
          FetchOutcome.err "x"⟩
        "applications" ⟨"GET", [], none, true, false⟩).result =
      ⟨Json.null, Json.str "Authentication failed. Please log in again.", 401⟩ ∧
    (runRefresh defaultApiUrl ⟨some ⟨"u1", "u@example.com", "U"⟩, some ⟨"a", "r"⟩, true⟩
        ⟨FetchOutcome.ok ⟨401, "Unauthorized", some "application/json", ""⟩,
          FetchOutcome.ok ⟨403, "Forbidden", some "application/json", ""⟩,
          FetchOutcome.err "x"⟩).1 = false ∧
    (runRequest defaultApiUrl ⟨some ⟨"u1", "u@example.com", "U"⟩, some ⟨"a", "r"⟩, true⟩
        ⟨FetchOutcome.ok ⟨401, "Unauthorized", some "application/json", ""⟩,
          FetchOutcome.ok ⟨403, "Forbidden", some "application/json", ""⟩,
          FetchOutcome.err "x"⟩
        "applications" ⟨"GET", [], none, true, false⟩).state = ⟨none, none, false⟩ ∧
    getAuthToken (runRequest defaultApiUrl
        ⟨some ⟨"u1", "u@example.com", "U"⟩, some ⟨"a", "r"⟩, true⟩
        ⟨FetchOutcome.ok ⟨401, "Unauthorized", some "application/json", ""⟩,
          FetchOutcome.ok ⟨403, "Forbidden", some "application/json", ""⟩,
          FetchOutcome.err "x"⟩
        "applications" ⟨"GET", [], none, true, false⟩).state = none ∧
    countUrl (formatUrl defaultApiUrl "applications")
      (runRequest defaultApiUrl ⟨some ⟨"u1", "u@example.com", "U"⟩, some ⟨"a", "r"⟩, true⟩
        ⟨FetchOutcome.ok ⟨401, "Unauthorized", some "application/json", ""⟩,
          FetchOutcome.ok ⟨403, "Forbidden", some "application/json", ""⟩,
          FetchOutcome.err "x"⟩
        "applications" ⟨"GET", [], none, true, false⟩).events = 1 :=
  c4_refresh_nonsuccess defaultApiUrl
    ⟨some ⟨"u1", "u@example.com", "U"⟩, some ⟨"a", "r"⟩, true⟩
    ⟨FetchOutcome.ok ⟨401, "Unauthorized", some "application/json", ""⟩,
      FetchOutcome.ok ⟨403, "Forbidden", some "application/json", ""⟩,
      FetchOutcome.err "x"⟩
    "applications" ⟨"GET", [], none, true, false⟩ "a" "r"
    ⟨401, "Unauthorized", some "application/json", ""⟩
    ⟨403, "Forbidden", some "application/json", ""⟩
    rfl rfl rfl rfl rfl rfl rfl rfl (by decide) (by decide)

-- ## Claim C8

/-- Claim C8: the pipeline converts network-level fetch failures into the
normal return channel with status 0 and the rejection's message: when the
original fetch rejects (past the auth gate), and when the retried fetch
rejects after a successful refresh, the result is
{data: null, error: <message>, status: 0}; no exception escapes (the
model is a total function into the uniform result type). -/
theorem c8_network_failure_status_zero (apiUrl : String) (st : AuthState)
    (env : Env) (ep : String) (opts : RequestOptions) (msg : String) :
    ((opts.requiresAuth && (getAuthToken st).isNone) = false →
      env.first = FetchOutcome.err msg →
      (runRequest apiUrl st env ep opts).result = ⟨Json.null, Json.str msg, 0⟩) ∧
    (∀ r1 tok2, env.first = FetchOutcome.ok r1 → r1.status = 401 →
      opts.requiresAuth = true → opts.skipRefreshToken = false →
      (getAuthToken st).isNone = false →
      (runRefresh apiUrl st env).1 = true →
      getAuthToken (runRefresh apiUrl st env).2.1 = some tok2 →
      env.retry = FetchOutcome.err msg →
      (runRequest apiUrl st env ep opts).result = ⟨Json.null, Json.str msg, 0⟩) := by
  constructor
  · intro hgate hf
    simp [runRequest, hgate, hf]
  · intro r1 tok2 hf h401 hra hskip htok hsucc htok2 hretry
    rcases hrr : runRefresh apiUrl st env with ⟨b, st2, revs⟩
    rw [hrr] at hsucc htok2
    simp only at hsucc htok2
    subst hsucc
    simp [runRequest, hf, h401, hra, hskip, htok, hrr, htok2, hretry]

theorem c8_network_failure_status_zero_witness :
    ((((⟨"GET", [], none, false, false⟩ : RequestOptions).requiresAuth &&
        (getAuthToken ⟨none, none, false⟩).isNone) = false →
      (⟨FetchOutcome.err "Failed to fetch", FetchOutcome.err "x",
          FetchOutcome.err "x"⟩ : Env).first = FetchOutcome.err "Failed to fetch" →
      (runRequest defaultApiUrl ⟨none, none, false⟩
          ⟨FetchOutcome.err "Failed to fetch", FetchOutcome.err "x",
            FetchOutcome.err "x"⟩
          "health" ⟨"GET", [], none, false, false⟩).result =
        ⟨Json.null, Json.str "Failed to fetch", 0⟩) ∧
      (∀ r1 tok2,
        (⟨FetchOutcome.err "Failed to fetch", FetchOutcome.err "x",
            FetchOutcome.err "x"⟩ : Env).first = FetchOutcome.ok r1 →
        r1.status = 401 →
        (⟨"GET", [], none, false, false⟩ : RequestOptions).requiresAuth = true →
        (⟨"GET", [], none, false, false⟩ : RequestOptions).skipRefreshToken = false →
        (getAuthToken ⟨none, none, false⟩).isNone = false →
        (runRefresh defaultApiUrl ⟨none, none, false⟩
            ⟨FetchOutcome.err "Failed to fetch", FetchOutcome.err "x",
              FetchOutcome.err "x"⟩).1 = true →
        getAuthToken (runRefresh defaultApiUrl ⟨none, none, false⟩
            ⟨FetchOutcome.err "Failed to fetch", FetchOutcome.err "x",
              FetchOutcome.err "x"⟩).2.1 = some tok2 →
        (⟨FetchOutcome.err "Failed to fetch", FetchOutcome.err "x",
            FetchOutcome.err "x"⟩ : Env).retry = FetchOutcome.err "Failed to fetch" →
        (runRequest defaultApiUrl ⟨none, none, false⟩
            ⟨FetchOutcome.err "Failed to fetch", FetchOutcome.err "x",
              FetchOutcome.err "x"⟩
            "health" ⟨"GET", [], none, false, false⟩).result =
          ⟨Json.null, Json.str "Failed to fetch", 0⟩)) ∧
    (runRequest defaultApiUrl ⟨none, none, false⟩
        ⟨FetchOutcome.err "Failed to fetch", FetchOutcome.err "x", FetchOutcome.err "x"⟩
        "health" ⟨"GET", [], none, false, false⟩).result =
      ⟨Json.null, Json.str "Failed to fetch", 0⟩ :=
  ⟨c8_network_failure_status_zero defaultApiUrl ⟨none, none, false⟩
      ⟨FetchOutcome.err "Failed to fetch", FetchOutcome.err "x", FetchOutcome.err "x"⟩
      "health" ⟨"GET", [], none, false, false⟩ "Failed to fetch",
    (c8_network_failure_status_zero defaultApiUrl ⟨none, none, false⟩
      ⟨FetchOutcome.err "Failed to fetch", FetchOutcome.err "x", FetchOutcome.err "x"⟩
      "health" ⟨"GET", [], none, false, false⟩ "Failed to fetch").1 rfl rfl⟩

-- ## Claim C10

/-- Claim C10: with requiresAuth false the invocation is independent of
the credential store: two runs differing only in stored credentials
return the same result and issue the same (single) request, whose headers
are exactly the fixed content type spread with the caller's headers (no
Authorization derived from stored tokens); the store is left untouched;
and a 401 response is returned as the final status without invoking the
refresh coordinator (exactly one request is ever issued). -/
theorem c10_auth_free_independence (apiUrl : String) (st1 st2 : AuthState)
    (env : Env) (ep : String) (opts : RequestOptions)
    (h : opts.requiresAuth = false) :
    (runRequest apiUrl st1 env ep opts).result =
      (runRequest apiUrl st2 env ep opts).result ∧
    (runRequest apiUrl st1 env ep opts).events =
      (runRequest apiUrl st2 env ep opts).events ∧
    (runRequest apiUrl st1 env ep opts).state = st1 ∧
    (runRequest apiUrl st2 env ep opts).state = st2 ∧
    (runRequest apiUrl st1 env ep opts).events.length = 1 ∧
    (∀ r1, env.first = FetchOutcome.ok r1 →
      (runRequest apiUrl st1 env ep opts).result.status = r1.status) ∧
    (∀ e ∈ (runRequest apiUrl st1 env ep opts).events,
      e.headers = objSpread [("Content-Type", "application/json")] opts.headers) := by
  rcases henv : env.first with r1 | m <;>
    simp [runRequest, h, henv, firstHeaders]

theorem c10_auth_free_independence_witness :
    (runRequest defaultApiUrl ⟨some ⟨"u1", "u@example.com", "U"⟩, some ⟨"a", "r"⟩, true⟩
        ⟨FetchOutcome.ok ⟨401, "Unauthorized", some "application/json", ""⟩,
          FetchOutcome.err "x", FetchOutcome.err "x"⟩
        "users/login" ⟨"POST", [], some (Json.obj [("email", Json.str "e")]), false,
          false⟩).result =
      (runRequest defaultApiUrl ⟨none, none, false⟩
        ⟨FetchOutcome.ok ⟨401, "Unauthorized", some "application/json", ""⟩,
          FetchOutcome.err "x", FetchOutcome.err "x"⟩
        "users/login" ⟨"POST", [], some (Json.obj [("email", Json.str "e")]), false,
          false⟩).result ∧
    (runRequest defaultApiUrl ⟨some ⟨"u1", "u@example.com", "U"⟩, some ⟨"a", "r"⟩, true⟩
        ⟨FetchOutcome.ok ⟨401, "Unauthorized", some "application/json", ""⟩,
          FetchOutcome.err "x", FetchOutcome.err "x"⟩
        "users/login" ⟨"POST", [], some (Json.obj [("email", Json.str "e")]), false,
          false⟩).events =
      (runRequest defaultApiUrl ⟨none, none, false⟩
        ⟨FetchOutcome.ok ⟨401, "Unauthorized", some "application/json", ""⟩,
          FetchOutcome.err "x", FetchOutcome.err "x"⟩
        "users/login" ⟨"POST", [], some (Json.obj [("email", Json.str "e")]), false,
          false⟩).events ∧
    (runRequest defaultApiUrl ⟨some ⟨"u1", "u@example.com", "U"⟩, some ⟨"a", "r"⟩, true⟩
        ⟨FetchOutcome.ok ⟨401, "Unauthorized", some "application/json", ""⟩,
          FetchOutcome.err "x", FetchOutcome.err "x"⟩
        "users/login" ⟨"POST", [], some (Json.obj [("email", Json.str "e")]), false,
          false⟩).state = ⟨some ⟨"u1", "u@example.com", "U"⟩, some ⟨"a", "r"⟩, true⟩ ∧
    (runRequest defaultApiUrl ⟨none, none, false⟩
        ⟨FetchOutcome.ok ⟨401, "Unauthorized", some "application/json", ""⟩,
          FetchOutcome.err "x", FetchOutcome.err "x"⟩
        "users/login" ⟨"POST", [], some (Json.obj [("email", Json.str "e")]), false,
          false⟩).state = ⟨none, none, false⟩ ∧
    (runRequest defaultApiUrl ⟨some ⟨"u1", "u@example.com", "U"⟩, some ⟨"a", "r"⟩, true⟩
        ⟨FetchOutcome.ok ⟨401, "Unauthorized", some "application/json", ""⟩,
          FetchOutcome.err "x", FetchOutcome.err "x"⟩
        "users/login" ⟨"POST", [], some (Json.obj [("email", Json.str "e")]), false,
          false⟩).events.length = 1 ∧
    (∀ r1, (⟨FetchOutcome.ok ⟨401, "Unauthorized", some "application/json", ""⟩,
          FetchOutcome.err "x", FetchOutcome.err "x"⟩ : Env).first = FetchOutcome.ok r1 →
      (runRequest defaultApiUrl ⟨some ⟨"u1", "u@example.com", "U"⟩, some ⟨"a", "r"⟩, true⟩
        ⟨FetchOutcome.ok ⟨401, "Unauthorized", some "application/json", ""⟩,
          FetchOutcome.err "x", FetchOutcome.err "x"⟩
        "users/login" ⟨"POST", [], some (Json.obj [("email", Json.str "e")]), false,
          false⟩).result.status = r1.status) ∧
    (∀ e ∈ (runRequest defaultApiUrl
        ⟨some ⟨"u1", "u@example.com", "U"⟩, some ⟨"a", "r"⟩, true⟩
        ⟨FetchOutcome.ok ⟨401, "Unauthorized", some "application/json", ""⟩,
          FetchOutcome.err "x", FetchOutcome.err "x"⟩
        "users/login" ⟨"POST", [], some (Json.obj [("email", Json.str "e")]), false,
          false⟩).events,
      e.headers = objSpread [("Content-Type", "application/json")]
        (⟨"POST", [], some (Json.obj [("email", Json.str "e")]), false,
          false⟩ : RequestOptions).headers) :=
  c10_auth_free_independence defaultApiUrl
    ⟨some ⟨"u1", "u@example.com", "U"⟩, some ⟨"a", "r"⟩, true⟩ ⟨none, none, false⟩
    ⟨FetchOutcome.ok ⟨401, "Unauthorized", some "application/json", ""⟩,
      FetchOutcome.err "x", FetchOutcome.err "x"⟩
    "users/login" ⟨"POST", [], some (Json.obj [("email", Json.str "e")]), false, false⟩
    rfl

-- ## Claim C3

/-- Claim C3: per pipeline invocation the original request is reissued at
most once (the original URL is fetched at most twice and the refresh
endpoint at most once), and whenever the retry was issued (the original
URL was fetched twice), the final status is the retried response's
status — in particular a 401 on the retry triggers no further refresh and
no further retry. -/
theorem c3_retry_at_most_once (apiUrl : String) (st : AuthState) (env : Env)
    (ep : String) (opts : RequestOptions)
    (hne1 : formatUrl apiUrl ep ≠ formatUrl apiUrl "users/refresh-token")
    (hne2 : formatUrl apiUrl ep ≠ formatUrl apiUrl "users/logout") :
    countUrl (formatUrl apiUrl ep) (runRequest apiUrl st env ep opts).events ≤ 2 ∧
    countUrl (formatUrl apiUrl "users/refresh-token")
      (runRequest apiUrl st env ep opts).events ≤ 1 ∧
    (countUrl (formatUrl apiUrl ep) (runRequest apiUrl st env ep opts).events = 2 →
      ∀ r2, env.retry = FetchOutcome.ok r2 →
        (runRequest apiUrl st env ep opts).result.status = r2.status) := by
  cases hgate : (opts.requiresAuth && (getAuthToken st).isNone) with
  | true =>
      have hev : (runRequest apiUrl st env ep opts).events = [] := by
        simp [runRequest, hgate]
      rw [hev]
      refine ⟨?_, ?_, ?_⟩ <;> simp [countUrl_nil]
  | false =>
      cases henv : env.first with
      | err m =>
          have hev : (runRequest apiUrl st env ep opts).events =
              [⟨formatUrl apiUrl ep, opts.method,
                firstHeaders (if opts.requiresAuth then getAuthToken st else none)
                  opts.headers,
                if jsTruthyOpt opts.body then opts.body else none⟩] := by
            simp [runRequest, hgate, henv]
          rw [hev]
          refine ⟨?_, ?_, ?_⟩ <;>
            simp [countUrl_cons, countUrl_nil, hne1]
      | ok r1 =>
          cases hcond : (r1.status == 401 && opts.requiresAuth &&
              !opts.skipRefreshToken) with
          | false =>
              have hev : (runRequest apiUrl st env ep opts).events =
                  [⟨formatUrl apiUrl ep, opts.method,
                    firstHeaders (if opts.requiresAuth then getAuthToken st else none)
                      opts.headers,
                    if jsTruthyOpt opts.body then opts.body else none⟩] := by
                simp [runRequest, hgate, henv, hcond]
              rw [hev]
              refine ⟨?_, ?_, ?_⟩ <;>
                simp [countUrl_cons, countUrl_nil, hne1]
          | true =>
              rcases hrr : runRefresh apiUrl st env with ⟨b, st2, revs⟩
              have hc0 : countUrl (formatUrl apiUrl ep) revs = 0 := by
                have h := runRefresh_countNe apiUrl st env (formatUrl apiUrl ep)
                  hne1 hne2
                rw [hrr] at h; exact h
              have hc1 : countUrl (formatUrl apiUrl "users/refresh-token") revs ≤ 1 := by
                have h := runRefresh_countRefresh apiUrl st env
                rw [hrr] at h; exact h
              cases b with
              | false =>
                  have hev : (runRequest apiUrl st env ep opts).events =
                      ⟨formatUrl apiUrl ep, opts.method,
                        firstHeaders
                          (if opts.requiresAuth then getAuthToken st else none)
                          opts.headers,
                        if jsTruthyOpt opts.body then opts.body else none⟩ ::
                        revs := by
                    simp [runRequest, hgate, henv, hcond, hrr]
                  rw [hev]
                  refine ⟨?_, ?_, ?_⟩
                  · simp [countUrl_cons, hc0]
                  · rw [countUrl_cons]
                    simp [hne1, hc1]
                  · simp [countUrl_cons, hc0]
              | true =>
                  cases htk : getAuthToken st2 with
                  | none =>
                      have hev : (runRequest apiUrl st env ep opts).events =
                          ⟨formatUrl apiUrl ep, opts.method,
                            firstHeaders
                              (if opts.requiresAuth then getAuthToken st else none)
                              opts.headers,
                            if jsTruthyOpt opts.body then opts.body else none⟩ ::
                            revs := by
                        simp [runRequest, hgate, henv, hcond, hrr, htk]
                      rw [hev]
                      refine ⟨?_, ?_, ?_⟩
                      · simp [countUrl_cons, hc0]
                      · rw [countUrl_cons]
                        simp [hne1, hc1]
                      · simp [countUrl_cons, hc0]
                  | some tok2 =>
                      cases henv2 : env.retry with
                      | err m2 =>
                          have hev : (runRequest apiUrl st env ep opts).events =
                              ⟨formatUrl apiUrl ep, opts.method,
                                firstHeaders
                                  (if opts.requiresAuth then getAuthToken st else none)
                                  opts.headers,
                                if jsTruthyOpt opts.body then opts.body else none⟩ ::
                                (revs ++
                                  [⟨formatUrl apiUrl ep, opts.method,
                                    retryHeaders tok2 opts.headers,
                                    if jsTruthyOpt opts.body then opts.body
                                      else none⟩]) := by
                            simp [runRequest, hgate, henv, hcond, hrr, htk, henv2]
                          rw [hev]
                          refine ⟨?_, ?_, ?_⟩
                          · simp [countUrl_cons, countUrl_append, countUrl_nil, hc0]
                          · rw [countUrl_cons, countUrl_append, countUrl_cons,
                              countUrl_nil]
                            simp [hne1, hc1]
                          · intro _ r2 hr2
                            cases hr2
                      | ok r2' =>
                          have hev : (runRequest apiUrl st env ep opts).events =
                              ⟨formatUrl apiUrl ep, opts.method,
                                firstHeaders
                                  (if opts.requiresAuth then getAuthToken st else none)
                                  opts.headers,
                                if jsTruthyOpt opts.body then opts.body else none⟩ ::
                                (revs ++
                                  [⟨formatUrl apiUrl ep, opts.method,
                                    retryHeaders tok2 opts.headers,
                                    if jsTruthyOpt opts.body then opts.body
                                      else none⟩]) := by
                            simp [runRequest, hgate, henv, hcond, hrr, htk, henv2]
                          have hres : (runRequest apiUrl st env ep opts).result.status =
                              r2'.status := by
                            simp [runRequest, hgate, henv, hcond, hrr, htk, henv2]
                          rw [hev]
                          refine ⟨?_, ?_, ?_⟩
                          · simp [countUrl_cons, countUrl_append, countUrl_nil, hc0]
                          · rw [countUrl_cons, countUrl_append, countUrl_cons,
                              countUrl_nil]
                            simp [hne1, hc1]
                          · intro _ r2 hr2
                            cases hr2
                            exact hres

theorem c3_retry_at_most_once_witness :
    countUrl (formatUrl defaultApiUrl "applications")
      (runRequest defaultApiUrl ⟨some ⟨"u1", "u@example.com", "U"⟩, some ⟨"a", "r"⟩, true⟩
        ⟨FetchOutcome.ok ⟨401, "Unauthorized", some "application/json", ""⟩,
          FetchOutcome.ok ⟨200, "OK", some "application/json",
            "\x7b\"tokens\":\x7b\"accessToken\":\"newA\",\"refreshToken\":\"newR\"\x7d\x7d"⟩,
          FetchOutcome.ok ⟨401, "Unauthorized", some "application/json", ""⟩⟩
        "applications" ⟨"GET", [], none, true, false⟩).events ≤ 2 ∧
    countUrl (formatUrl defaultApiUrl "users/refresh-token")
      (runRequest defaultApiUrl ⟨some ⟨"u1", "u@example.com", "U"⟩, some ⟨"a", "r"⟩, true⟩
        ⟨FetchOutcome.ok ⟨401, "Unauthorized", some "application/json", ""⟩,
          FetchOutcome.ok ⟨200, "OK", some "application/json",
            "\x7b\"tokens\":\x7b\"accessToken\":\"newA\",\"refreshToken\":\"newR\"\x7d\x7d"⟩,
          FetchOutcome.ok ⟨401, "Unauthorized", some "application/json", ""⟩⟩
        "applications" ⟨"GET", [], none, true, false⟩).events ≤ 1 ∧
    (countUrl (formatUrl defaultApiUrl "applications")
        (runRequest defaultApiUrl
          ⟨some ⟨"u1", "u@example.com", "U"⟩, some ⟨"a", "r"⟩, true⟩
          ⟨FetchOutcome.ok ⟨401, "Unauthorized", some "application/json", ""⟩,
            FetchOutcome.ok ⟨200, "OK", some "application/json",
              "\x7b\"tokens\":\x7b\"accessToken\":\"newA\",\"refreshToken\":\"newR\"\x7d\x7d"⟩,
            FetchOutcome.ok ⟨401, "Unauthorized", some "application/json", ""⟩⟩
          "applications" ⟨"GET", [], none, true, false⟩).events = 2 →
      ∀ r2, (⟨FetchOutcome.ok ⟨401, "Unauthorized", some "application/json", ""⟩,
          FetchOutcome.ok ⟨200, "OK", some "application/json",
            "\x7b\"tokens\":\x7b\"accessToken\":\"newA\",\"refreshToken\":\"newR\"\x7d\x7d"⟩,
          FetchOutcome.ok ⟨401, "Unauthorized", some "application/json", ""⟩⟩ : Env).retry =
          FetchOutcome.ok r2 →
        (runRequest defaultApiUrl
          ⟨some ⟨"u1", "u@example.com", "U"⟩, some ⟨"a", "r"⟩, true⟩
          ⟨FetchOutcome.ok ⟨401, "Unauthorized", some "application/json", ""⟩,
            FetchOutcome.ok ⟨200, "OK", some "application/json",
              "\x7b\"tokens\":\x7b\"accessToken\":\"newA\",\"refreshToken\":\"newR\"\x7d\x7d"⟩,
            FetchOutcome.ok ⟨401, "Unauthorized", some "application/json", ""⟩⟩
          "applications" ⟨"GET", [], none, true, false⟩).result.status = r2.status) :=
  c3_retry_at_most_once defaultApiUrl
    ⟨some ⟨"u1", "u@example.com", "U"⟩, some ⟨"a", "r"⟩, true⟩
    ⟨FetchOutcome.ok ⟨401, "Unauthorized", some "application/json", ""⟩,
      FetchOutcome.ok ⟨200, "OK", some "application/json",
        "\x7b\"tokens\":\x7b\"accessToken\":\"newA\",\"refreshToken\":\"newR\"\x7d\x7d"⟩,
      FetchOutcome.ok ⟨401, "Unauthorized", some "application/json", ""⟩⟩
    "applications" ⟨"GET", [], none, true, false⟩ (by decide) (by decide)

-- ## Claim C2: the refresh coordinator under concurrent callers.
-- The single-threaded event loop makes the code between suspension
-- points atomic.  refreshToken's entry (lines 185-190: the isRefreshing
-- check, setting isRefreshing, creating the shared promise and — via the
-- synchronous prefix of the async executor, lines 192-207 — issuing the
-- refresh POST) contains no await, so it is one atomic step; likewise
-- settlement (resolve plus the finally block, lines 221-229) resets
-- isRefreshing and releases every waiter with the one resolved boolean.
-- Tasks model pipeline invocations that hold a freshly received 401
-- (with a refresh token present, the path that reaches the POST).

inductive Phase where
  | pending : Phase
  | awaiting : Phase
  | settled : Bool → Phase
deriving DecidableEq

/-- Shared coordinator state: the `isRefreshing` flag, a count of
refresh POSTs issued so far, a count of settlements so far, and the
per-task phases. -/
structure CoordState where
  isRefreshing : Bool
  refreshPosts : Nat
  settles : Nat
  phases : List Phase

/-- All N tasks hold a 401 and have not yet called refreshToken. -/
def initCoord (n : Nat) : CoordState :=
  ⟨false, 0, 0, List.replicate n Phase.pending⟩

/-- Settlement: the executor resolves with b and the finally block runs;
isRefreshing is reset and every caller awaiting the shared promise is
released with the same boolean. -/
def settleState (s : CoordState) (b : Bool) : CoordState :=
  { s with isRefreshing := false, settles := s.settles + 1,
           phases := s.phases.map
             (fun p => if p = Phase.awaiting then Phase.settled b else p) }

inductive CStep : CoordState → CoordState → Prop where
  | enterBusy (s : CoordState) (i : Nat) :
      s.phases.get? i = some Phase.pending → s.isRefreshing = true →
      CStep s { s with phases := s.phases.set i Phase.awaiting }
  | enterIdle (s : CoordState) (i : Nat) :
      s.phases.get? i = some Phase.pending → s.isRefreshing = false →
      CStep s { s with isRefreshing := true, refreshPosts := s.refreshPosts + 1,
                       phases := s.phases.set i Phase.awaiting }
  | settle (s : CoordState) (b : Bool) :
      s.isRefreshing = true → CStep s (settleState s b)

inductive Reach : CoordState → CoordState → Prop where
  | refl (s : CoordState) : Reach s s
  | tail {s t u : CoordState} : Reach s t → CStep t u → Reach s u

/-- Invariant: the number of refresh POSTs issued never exceeds the
number of settlements plus one in-flight refresh. -/
lemma coordInv {n : Nat} {s : CoordState} (h : Reach (initCoord n) s) :
    s.refreshPosts ≤ s.settles + (if s.isRefreshing then 1 else 0) := by
  induction h with
  | refl => simp [initCoord]
  | tail hr hstep ih =>
      cases hstep with
      | enterBusy i hp hbusy =>
          simpa using ih
      | enterIdle i hp hidle =>
          rw [hidle] at ih
          simp at ih ⊢
          omega
      | settle b hbusy =>
          rw [hbusy] at ih
          simp [settleState] at ih ⊢
          omega

/-- Claim C2: starting from N concurrent pipeline invocations that each
hold a 401, in every reachable coordinator state in which no refresh has
yet settled, at most one refresh POST has been issued (callers that
arrive while a refresh is in flight register as waiters instead of
POSTing); and a settlement releases every awaiting caller with the same
outcome boolean. -/
theorem c2_single_refresh (n : Nat) (s : CoordState)
    (h : Reach (initCoord n) s) :
    (s.settles = 0 → s.refreshPosts ≤ 1) ∧
    (∀ b i, s.phases.get? i = some Phase.awaiting →
      (settleState s b).phases.get? i = some (Phase.settled b)) := by
  constructor
  · intro h0
    have hi := coordInv h
    rw [h0] at hi
    cases hb : s.isRefreshing <;> rw [hb] at hi <;> simp at hi <;> omega
  · intro b i hp
    simp only [settleState]
    rw [List.get?_map, hp]
    simp

theorem c2_single_refresh_witness :
    ((⟨true, 1, 0, [Phase.awaiting, Phase.awaiting]⟩ : CoordState).settles = 0 →
      (⟨true, 1, 0, [Phase.awaiting, Phase.awaiting]⟩ : CoordState).refreshPosts ≤ 1) ∧
    (∀ b i, (⟨true, 1, 0, [Phase.awaiting, Phase.awaiting]⟩ : CoordState).phases.get? i =
        some Phase.awaiting →
      (settleState ⟨true, 1, 0, [Phase.awaiting, Phase.awaiting]⟩ b).phases.get? i =
        some (Phase.settled b)) :=
  c2_single_refresh 2 ⟨true, 1, 0, [Phase.awaiting, Phase.awaiting]⟩
    (Reach.tail (Reach.tail (Reach.refl (initCoord 2))
        (CStep.enterIdle (initCoord 2) 0 rfl rfl))
      (CStep.enterBusy ⟨true, 1, 0, [Phase.awaiting, Phase.pending]⟩ 1 rfl rfl))
